import Mathlib

/-!
Shallow embedding of the Interactive SQL Visualizer (src/index.tsx and
src/api/explain.ts): the static topic catalog, the table renderer, the
scroll-reveal engine, the AI-response formatter and the explanation
request client, together with theorems checking the specification's
claims about them.
-/

namespace SQLViz

/-- A cell value: JS string or number (all numbers in the data are
integers), or `null`. A missing key (JS `undefined`) is represented by
`Option.none` at the access site, not by a `Value`. -/
inductive Value
  | str (s : String)
  | num (n : Int)
  | vnull
deriving DecidableEq

/-- A data row: the column cells in insertion order, plus the annotation
flags (`highlight`, `unmatched`, `inserted`, `updated`, `updatedCells`).
In the JS source a row is one object holding both; a flag written
`highlight: false` and an absent flag are conflated into `false`, which
is faithful for every use (JS truthiness tests only). -/
structure Row where
  cells : List (String × Value)
  highlight : Bool := false
  unmatched : Bool := false
  inserted : Bool := false
  updated : Bool := false
  updatedCells : List String := []
deriving DecidableEq

def mkRow (cs : List (String × Value)) : Row := { cells := cs }

/-- A table literal as the renderer receives it: every field may be
absent (the renderer guards `!data.name`, `data.columns || …`,
`!data.rows`). Catalog tables populate all three. -/
structure TableData where
  name : Option String := none
  columns : Option (List String) := none
  rows : Option (List Row) := none
deriving DecidableEq

def mkT (name : String) (columns : List String) (rows : List Row) : TableData :=
  { name := some name, columns := some columns, rows := some rows }

structure Step where
  explanation : String
  query : String
  tables : List TableData
deriving DecidableEq

structure Example where
  title : String
  steps : List Step
deriving DecidableEq

/-- One catalog topic. The source field `syntax` is a reserved word in
Lean and is embedded as `syntaxStr`. -/
structure Topic where
  description : String
  syntaxStr : String
  useCase : String
  examples : List Example
deriving DecidableEq

/-- `row[key]`: `some` the stored value, `none` when the key is absent
(JS `undefined`). -/
def getValue (r : Row) (k : String) : Option Value :=
  (r.cells.find? (fun c => c.1 == k)).map Prod.snd

/-- Key access in the catalog builders (`c.CustomerID`, `r.Amount`, …):
every such access in the source hits a present key, so the `vnull`
default is never reached. -/
def rowGet (r : Row) (k : String) : Value :=
  ((r.cells.find? (fun c => c.1 == k)).map Prod.snd).getD .vnull

def rowStr (r : Row) (k : String) : String :=
  match rowGet r k with
  | .str s => s
  | _ => ""

def rowInt (r : Row) (k : String) : Int :=
  match rowGet r k with
  | .num n => n
  | _ => 0

/-- `new Set(list)` followed by `Array.from`: deduplicate keeping the
first occurrence of each element, in insertion order. -/
def setFrom {α} [BEq α] (l : List α) : List α :=
  l.foldl (fun acc x => if acc.contains x then acc else acc ++ [x]) []

/-- Stable insertion of `x` into an already-sorted list under a JS-style
comparator (negative = before, zero keeps original order). -/
def insertCmp {α} (cmp : α → α → Int) (x : α) : List α → List α
  | [] => [x]
  | y :: ys => if cmp x y < 0 then x :: y :: ys else y :: insertCmp cmp x ys

/-- `Array.prototype.sort(cmp)`: stable sort under a consistent JS
comparator, embedded as stable insertion sort. -/
def sortByCmp {α} (cmp : α → α → Int) (l : List α) : List α :=
  l.foldl (fun acc x => insertCmp cmp x acc) []

/-- Lexicographic code-point order on character lists (the order JS `<`
puts UTF-16 strings in; identical on this data's ASCII strings). -/
def charListLt : List Char → List Char → Bool
  | [], [] => false
  | [], _ :: _ => true
  | _ :: _, [] => false
  | a :: as, b :: bs =>
    if a.toNat < b.toNat then true
    else if b.toNat < a.toNat then false
    else charListLt as bs

/-- JS `a < b` on strings. -/
def strLt (a b : String) : Bool := charListLt a.data b.data

/-- `a.localeCompare(b)` and the default string sort: for the plain ASCII
names in this data both coincide with code-point order. -/
def compareStr (a b : String) : Int :=
  if strLt a b then -1 else if strLt b a then 1 else 0

-- --- DATA DEFINITIONS (src/index.tsx lines 12..46) ---

def customersRows : List Row := [
  mkRow [("CustomerID", .num 1), ("Name", .str "Alice"), ("Country", .str "USA")],
  mkRow [("CustomerID", .num 2), ("Name", .str "Bob"), ("Country", .str "Canada")],
  mkRow [("CustomerID", .num 3), ("Name", .str "Charlie"), ("Country", .str "USA")],
  mkRow [("CustomerID", .num 4), ("Name", .str "Diana"), ("Country", .str "UK")]]

def customersCols : List String := ["CustomerID", "Name", "Country"]

def customersTable : TableData :=
  mkT "Customers" customersCols customersRows

def ordersRows : List Row := [
  mkRow [("OrderID", .num 101), ("Product", .str "Laptop"), ("Amount", .num 1200), ("CustomerID", .num 1)],
  mkRow [("OrderID", .num 102), ("Product", .str "Mouse"), ("Amount", .num 25), ("CustomerID", .num 2)],
  mkRow [("OrderID", .num 103), ("Product", .str "Keyboard"), ("Amount", .num 75), ("CustomerID", .num 1)],
  mkRow [("OrderID", .num 104), ("Product", .str "Monitor"), ("Amount", .num 300), ("CustomerID", .num 3)],
  -- OrderID 105 belongs to a non-existent customer
  mkRow [("OrderID", .num 105), ("Product", .str "Webcam"), ("Amount", .num 50), ("CustomerID", .num 5)]]

def ordersCols : List String := ["OrderID", "Product", "Amount", "CustomerID"]

def ordersTable : TableData :=
  mkT "Orders" ordersCols ordersRows

def employeesRows : List Row := [
  mkRow [("EmployeeID", .num 104), ("Name", .str "Ivan"), ("Department", .str "Engineering"), ("Salary", .num 110000)],
  mkRow [("EmployeeID", .num 103), ("Name", .str "Heidi"), ("Department", .str "Engineering"), ("Salary", .num 95000)],
  mkRow [("EmployeeID", .num 105), ("Name", .str "Judy"), ("Department", .str "HR"), ("Salary", .num 60000)],
  mkRow [("EmployeeID", .num 106), ("Name", .str "Mallory"), ("Department", .str "Sales"), ("Salary", .num 80000)],
  mkRow [("EmployeeID", .num 102), ("Name", .str "Grace"), ("Department", .str "Sales"), ("Salary", .num 75000)],
  -- Salary tie with Grace
  mkRow [("EmployeeID", .num 101), ("Name", .str "Frank"), ("Department", .str "Sales"), ("Salary", .num 75000)]]

def employeesCols : List String := ["EmployeeID", "Name", "Department", "Salary"]

def employeesTable : TableData :=
  mkT "Employees" employeesCols employeesRows

-- --- HELPERS for data generation (src/index.tsx lines 48..50) ---

def customerIDsInOrders : List Int :=
  setFrom (ordersRows.map (fun o => rowInt o "CustomerID"))

def customerIDsInCustomers : List Int :=
  setFrom (customersRows.map (fun c => rowInt c "CustomerID"))

/-- `a > b` on JS numbers, as a Bool for filter predicates. -/
def intGt (a b : Int) : Bool := decide (b < a)

-- --- SQL TOPICS & EXAMPLES (src/index.tsx lines 54..779) ---

def topicSELECT : Topic := {
  description := "The SELECT statement is used to query the database and retrieve data that matches criteria that you specify.",
  syntaxStr := "SELECT column1, column2, ...\nFROM table_name;",
  useCase := "Use it anytime you need to fetch data from a table, whether it's all columns (*) or a specific subset of columns.",
  examples := [
    { title := "Select all columns",
      steps := [
        { explanation := "Start with the base table `Customers`.",
          query := "-- Base Table",
          tables := [customersTable] },
        { explanation := "The `SELECT *` statement retrieves all columns from the table.",
          query := "SELECT * FROM Customers;",
          -- source: { name: 'Result', ...customersTable } — the spread comes
          -- second and overwrites name, so the table is customersTable itself
          tables := [customersTable] }] },
    { title := "Select specific columns",
      steps := [
        { explanation := "Start with the base table `Customers`.",
          query := "-- Base Table",
          tables := [customersTable] },
        { explanation := "Specify the column names `Name` and `Country` to retrieve only that data.",
          query := "SELECT Name, Country FROM Customers;",
          tables := [mkT "Result" ["Name", "Country"]
            (customersRows.map (fun r => mkRow [("Name", rowGet r "Name"), ("Country", rowGet r "Country")]))] }] },
    { title := "Select with alias",
      steps := [
        { explanation := "Start with the base table `Customers`.",
          query := "-- Base Table",
          tables := [customersTable] },
        { explanation := "Use `AS` to rename a column in the output. Here `Name` is renamed to `CustomerName`.",
          query := "SELECT Name AS CustomerName FROM Customers;",
          tables := [mkT "Result" ["CustomerName"]
            (customersRows.map (fun r => mkRow [("CustomerName", rowGet r "Name")]))] }] }] }

def topicWHERE : Topic := {
  description := "The WHERE clause is used to filter records. It extracts only those records that fulfill a specified condition.",
  syntaxStr := "SELECT column1, column2, ...\nFROM table_name\nWHERE condition;",
  useCase := "Use it to narrow down the results of a query, such as finding all customers from a specific country or orders over a certain amount.",
  examples := [
    { title := "Filter with a string value",
      steps := [
        { explanation := "Start with the base table `Customers`.",
          query := "-- Base Table",
          tables := [customersTable] },
        { explanation := "The `WHERE` clause filters rows based on a condition. Here, we keep only rows where `Country` is 'USA'.",
          query := "SELECT * FROM Customers WHERE Country = 'USA';",
          tables := [mkT "Result" customersCols
            ((customersRows.filter (fun r => rowStr r "Country" == "USA")).map
              (fun r => { r with highlight := true }))] }] },
    { title := "Filter with a numeric value",
      steps := [
        { explanation := "Start with the base table `Orders`.",
          query := "-- Base Table",
          tables := [ordersTable] },
        { explanation := "The `WHERE` clause filters rows where `Amount` is greater than 100.",
          query := "SELECT * FROM Orders WHERE Amount > 100;",
          tables := [mkT "Result" ordersCols
            ((ordersRows.filter (fun r => intGt (rowInt r "Amount") 100)).map
              (fun r => { r with highlight := true }))] }] }] }

def topicINNERJOIN : Topic := {
  description := "The INNER JOIN keyword selects records that have matching values in both tables. It is the most common type of join.",
  syntaxStr := "SELECT columns\nFROM table1\nINNER JOIN table2 ON table1.column = table2.column;",
  useCase := "Use it to combine rows from two or more tables based on a related column between them, like getting customer names and the products they ordered.",
  examples := [
    { title := "Join Customers and Orders",
      steps := [
        { explanation := "Start with the two base tables. Rows that have a matching `CustomerID` in the other table are highlighted.",
          query := "-- Base Tables",
          tables := [
            { customersTable with rows := some (customersRows.map
                (fun c => { c with highlight := customerIDsInOrders.contains (rowInt c "CustomerID") })) },
            { ordersTable with rows := some (ordersRows.map
                (fun o => { o with highlight := customerIDsInCustomers.contains (rowInt o "CustomerID") })) }] },
        { explanation := "Perform an `INNER JOIN` on `CustomerID`. Only rows with matching `CustomerID` in both tables are included.",
          query := "SELECT C.Name, O.Product, O.Amount\nFROM Customers C\nINNER JOIN Orders O ON C.CustomerID = O.CustomerID;",
          tables := [mkT "Result" ["Name", "Product", "Amount"] [
            { cells := [("Name", .str "Alice"), ("Product", .str "Laptop"), ("Amount", .num 1200)], highlight := true },
            { cells := [("Name", .str "Bob"), ("Product", .str "Mouse"), ("Amount", .num 25)], highlight := true },
            { cells := [("Name", .str "Alice"), ("Product", .str "Keyboard"), ("Amount", .num 75)], highlight := true },
            { cells := [("Name", .str "Charlie"), ("Product", .str "Monitor"), ("Amount", .num 300)], highlight := true }]] }] }] }

def topicLEFTJOIN : Topic := {
  description := "The LEFT JOIN keyword returns all records from the left table (table1), and the matching records from the right table (table2). The result is NULL from the right side if there is no match.",
  syntaxStr := "SELECT columns\nFROM table1\nLEFT JOIN table2 ON table1.column = table2.column;",
  useCase := "Use it when you want to see all records from one table, regardless of whether they have a match in the second table. For example, to list all customers and any orders they may have placed.",
  examples := [
    { title := "Join Customers and Orders",
      steps := [
        { explanation := "Start with the two base tables. All rows from the left table (`Customers`) will be included. Rows with a match are green; rows without a match are red.",
          query := "-- Base Tables",
          tables := [
            { customersTable with rows := some (customersRows.map (fun c =>
                let hasMatch := customerIDsInOrders.contains (rowInt c "CustomerID")
                { c with highlight := hasMatch, unmatched := !hasMatch })) },
            { ordersTable with rows := some (ordersRows.map
                (fun o => { o with highlight := customerIDsInCustomers.contains (rowInt o "CustomerID") })) }] },
        { explanation := "A `LEFT JOIN` returns all records from the left table (`Customers`), and the matched records from the right table (`Orders`). Rows in `Customers` with no matching order will have `NULL` for order columns.",
          query := "SELECT C.Name, O.Product\nFROM Customers C\nLEFT JOIN Orders O ON C.CustomerID = O.CustomerID;",
          tables := [mkT "Result" ["Name", "Product"] [
            { cells := [("Name", .str "Alice"), ("Product", .str "Laptop")], highlight := true },
            { cells := [("Name", .str "Alice"), ("Product", .str "Keyboard")], highlight := true },
            { cells := [("Name", .str "Bob"), ("Product", .str "Mouse")], highlight := true },
            { cells := [("Name", .str "Charlie"), ("Product", .str "Monitor")], highlight := true },
            { cells := [("Name", .str "Diana"), ("Product", .vnull)], unmatched := true }]] }] }] }

def topicRIGHTJOIN : Topic := {
  description := "The RIGHT JOIN keyword returns all records from the right table (table2), and the matching records from the left table (table1). The result is NULL from the left side when there is no match.",
  syntaxStr := "SELECT columns\nFROM table1\nRIGHT JOIN table2 ON table1.column = table2.column;",
  useCase := "This is less common, but useful when you want all records from the second table. For instance, showing all orders, even if the customer who placed it has been deleted.",
  examples := [
    { title := "Join Customers and Orders",
      steps := [
        { explanation := "Start with the two base tables. All rows from the right table (`Orders`) will be included. Rows with a match are green; rows without a match are red.",
          query := "-- Base Tables",
          tables := [
            { customersTable with rows := some (customersRows.map
                (fun c => { c with highlight := customerIDsInOrders.contains (rowInt c "CustomerID") })) },
            { ordersTable with rows := some (ordersRows.map (fun o =>
                let hasMatch := customerIDsInCustomers.contains (rowInt o "CustomerID")
                { o with highlight := hasMatch, unmatched := !hasMatch })) }] },
        { explanation := "A `RIGHT JOIN` returns all records from the right table (`Orders`), and the matched records from the left table (`Customers`). The order with `CustomerID` 5 has no matching customer.",
          query := "SELECT C.Name, O.Product\nFROM Customers C\nRIGHT JOIN Orders O ON C.CustomerID = O.CustomerID;",
          tables := [mkT "Result" ["Name", "Product"] [
            { cells := [("Name", .str "Alice"), ("Product", .str "Laptop")], highlight := true },
            { cells := [("Name", .str "Alice"), ("Product", .str "Keyboard")], highlight := true },
            { cells := [("Name", .str "Bob"), ("Product", .str "Mouse")], highlight := true },
            { cells := [("Name", .str "Charlie"), ("Product", .str "Monitor")], highlight := true },
            { cells := [("Name", .vnull), ("Product", .str "Webcam")], unmatched := true }]] }] }] }

def topicFULLOUTERJOIN : Topic := {
  description := "The FULL OUTER JOIN keyword returns all records when there is a match in either left (table1) or right (table2) table records. It is a combination of LEFT JOIN and RIGHT JOIN.",
  syntaxStr := "SELECT columns\nFROM table1\nFULL OUTER JOIN table2 ON table1.column = table2.column;",
  useCase := "Use it when you need a complete dataset from both tables, showing all matched and unmatched rows. For example, to see all customers and all orders, linking them where possible.",
  examples := [
    { title := "Join Customers and Orders",
      steps := [
        { explanation := "Start with the two base tables. All rows from both tables are included. Matching rows are green; non-matching rows are red.",
          query := "-- Base Tables",
          tables := [
            { customersTable with rows := some (customersRows.map (fun c =>
                let hasMatch := customerIDsInOrders.contains (rowInt c "CustomerID")
                { c with highlight := hasMatch, unmatched := !hasMatch })) },
            { ordersTable with rows := some (ordersRows.map (fun o =>
                let hasMatch := customerIDsInCustomers.contains (rowInt o "CustomerID")
                { o with highlight := hasMatch, unmatched := !hasMatch })) }] },
        { explanation := "A `FULL OUTER JOIN` returns all records when there is a match in either the left (`Customers`) or right (`Orders`) table. Unmatched rows from either table will have `NULL` values for columns from the other table.",
          query := "SELECT C.Name, O.Product\nFROM Customers C\nFULL OUTER JOIN Orders O ON C.CustomerID = O.CustomerID;",
          tables := [mkT "Result" ["Name", "Product"] [
            { cells := [("Name", .str "Alice"), ("Product", .str "Laptop")], highlight := true },
            { cells := [("Name", .str "Alice"), ("Product", .str "Keyboard")], highlight := true },
            { cells := [("Name", .str "Bob"), ("Product", .str "Mouse")], highlight := true },
            { cells := [("Name", .str "Charlie"), ("Product", .str "Monitor")], highlight := true },
            { cells := [("Name", .str "Diana"), ("Product", .vnull)], unmatched := true },
            { cells := [("Name", .vnull), ("Product", .str "Webcam")], unmatched := true }]] }] }] }

def topicGROUPBY : Topic := {
  description := "The GROUP BY statement groups rows that have the same values into summary rows, like 'find the number of customers in each country'. The GROUP BY statement is often used with aggregate functions (COUNT(), MAX(), MIN(), SUM(), AVG()) to group the result-set by one or more columns.",
  syntaxStr := "SELECT column_name(s)\nFROM table_name\nWHERE condition\nGROUP BY column_name(s);",
  useCase := "Use it to aggregate data. For example, calculating the total sales per country, or counting the number of orders for each customer.",
  examples := [
    { title := "Count customers per country",
      steps := [
        { explanation := "Start with the base table `Customers`. We will group by the `Country` column.",
          query := "-- Base Table",
          tables := [customersTable] },
        { explanation := "First, the database groups the rows by `Country`.",
          query := "-- Intermediate: Grouping",
          tables := [
            mkT "Group: USA" customersCols
              ((customersRows.filter (fun c => rowStr c "Country" == "USA")).map
                (fun r => { r with highlight := true })),
            mkT "Group: Canada" customersCols
              ((customersRows.filter (fun c => rowStr c "Country" == "Canada")).map
                (fun r => { r with highlight := true })),
            mkT "Group: UK" customersCols
              ((customersRows.filter (fun c => rowStr c "Country" == "UK")).map
                (fun r => { r with highlight := true }))] },
        { explanation := "Then, the `COUNT(CustomerID)` aggregate function counts the number of customers in each group.",
          query := "SELECT Country, COUNT(CustomerID) AS CustomerCount\nFROM Customers\nGROUP BY Country;",
          tables := [mkT "Result" ["Country", "CustomerCount"] [
            { cells := [("Country", .str "USA"), ("CustomerCount", .num 2)], highlight := true },
            { cells := [("Country", .str "Canada"), ("CustomerCount", .num 1)], highlight := true },
            { cells := [("Country", .str "UK"), ("CustomerCount", .num 1)], highlight := true }]] }] },
    { title := "Calculate total order amount per customer",
      steps := [
        { explanation := "Start with the base table `Orders`. We will group by `CustomerID`.",
          query := "-- Base Table",
          tables := [ordersTable] },
        { explanation := "First, the rows are grouped by `CustomerID`.",
          query := "-- Intermediate: Grouping",
          tables := [
            mkT "Group: CustomerID 1" ordersCols
              ((ordersRows.filter (fun o => rowInt o "CustomerID" == 1)).map
                (fun r => { r with highlight := true })),
            mkT "Group: CustomerID 2" ordersCols
              ((ordersRows.filter (fun o => rowInt o "CustomerID" == 2)).map
                (fun r => { r with highlight := true })),
            mkT "Group: CustomerID 3" ordersCols
              ((ordersRows.filter (fun o => rowInt o "CustomerID" == 3)).map
                (fun r => { r with highlight := true })),
            mkT "Group: CustomerID 5" ordersCols
              ((ordersRows.filter (fun o => rowInt o "CustomerID" == 5)).map
                (fun r => { r with highlight := true }))] },
        { explanation := "Then, `SUM(Amount)` calculates the total amount for each customer group.",
          query := "SELECT CustomerID, SUM(Amount) AS TotalAmount\nFROM Orders\nGROUP BY CustomerID;",
          tables := [mkT "Result" ["CustomerID", "TotalAmount"] [
            { cells := [("CustomerID", .num 1), ("TotalAmount", .num 1275)], highlight := true },
            { cells := [("CustomerID", .num 2), ("TotalAmount", .num 25)], highlight := true },
            { cells := [("CustomerID", .num 3), ("TotalAmount", .num 300)], highlight := true },
            { cells := [("CustomerID", .num 5), ("TotalAmount", .num 50)], highlight := true }]] }] }] }

/-- The comparator of the multi-column ORDER BY example:
`a.Department < b.Department` / `>` first, then `b.Salary - a.Salary`. -/
def deptThenSalaryDesc (a b : Row) : Int :=
  if strLt (rowStr a "Department") (rowStr b "Department") then -1
  else if strLt (rowStr b "Department") (rowStr a "Department") then 1
  else rowInt b "Salary" - rowInt a "Salary"

def topicORDERBY : Topic := {
  description := "The ORDER BY keyword is used to sort the result-set in ascending or descending order.",
  syntaxStr := "SELECT columns\nFROM table_name\nORDER BY column1 [ASC|DESC], column2 [ASC|DESC], ...;",
  useCase := "Use it whenever the sequence of the output rows matters, such as sorting customers by name, or products by price.",
  examples := [
    { title := "Sort by one column (ASC)",
      steps := [
        { explanation := "The `ORDER BY Name` clause sorts the result alphabetically by the `Name` column. `ASC` (ascending) is the default.",
          query := "SELECT * FROM Customers ORDER BY Name;",
          tables := [{ customersTable with
            name := some "Result"
            rows := some (sortByCmp (fun a b => compareStr (rowStr a "Name") (rowStr b "Name")) customersRows) }] }] },
    { title := "Sort by one column (DESC)",
      steps := [
        { explanation := "Using `DESC` (descending) sorts the result in reverse alphabetical order.",
          query := "SELECT * FROM Customers ORDER BY Name DESC;",
          tables := [{ customersTable with
            name := some "Result"
            rows := some (sortByCmp (fun a b => compareStr (rowStr b "Name") (rowStr a "Name")) customersRows) }] }] },
    { title := "Sort by multiple columns",
      steps := [
        { explanation := "This sorts first by `Department` alphabetically, and then for rows with the same department, it sorts by `Salary` in descending order.",
          query := "SELECT Name, Department, Salary FROM Employees ORDER BY Department ASC, Salary DESC;",
          -- the sorted rows keep every key of employeesRows, EmployeeID included,
          -- although the columns list omits it
          tables := [mkT "Result" ["Name", "Department", "Salary"]
            (sortByCmp deptThenSalaryDesc employeesRows)] }] }] }

def topicUNION : Topic := {
  description := "The UNION operator is used to combine the result-set of two or more SELECT statements. Each SELECT statement within UNION must have the same number of columns. The columns must also have similar data types. Also, the columns in each SELECT statement must be in the same order.",
  syntaxStr := "SELECT column_name(s) FROM table1\nUNION\nSELECT column_name(s) FROM table2;",
  useCase := "Use it to merge results from multiple queries into a single result set. For example, getting a combined list of all customers and employees.",
  examples := [
    { title := "Combine names from Customers and Employees",
      steps := [
        { explanation := "First, two separate `SELECT` statements are executed.",
          query := "-- Component Queries",
          tables := [
            mkT "Customers Names" ["Name"]
              (customersRows.map (fun c => { cells := [("Name", rowGet c "Name")], highlight := true })),
            mkT "Employees Names" ["Name"]
              (employeesRows.map (fun e => { cells := [("Name", rowGet e "Name")], highlight := true }))] },
        { explanation := "The `UNION` operator combines the results of both queries into a single column and removes duplicate values. Note that `UNION ALL` would keep duplicates.",
          query := "SELECT Name FROM Customers\nUNION\nSELECT Name FROM Employees;",
          tables := [mkT "Result" ["Name"]
            ((sortByCmp compareStr
                (setFrom (customersRows.map (fun c => rowStr c "Name") ++
                  employeesRows.map (fun e => rowStr e "Name")))).map
              (fun name => mkRow [("Name", .str name)]))] }] }] }

def topicSubquery : Topic := {
  description := "A subquery, or inner query, is a query nested inside another SQL query. It is used to return data that will be used in the main query as a condition to further restrict the data to be retrieved.",
  syntaxStr := "SELECT column_name(s)\nFROM table_name\nWHERE column_name IN (SELECT column_name FROM table_name WHERE ...);",
  useCase := "Use subqueries to perform multi-step queries where the result of one query is needed to filter the data for another, such as finding all customers who have placed an order.",
  examples := [
    { title := "Find customers who placed an order",
      steps := [
        { explanation := "First, the inner query (subquery) is executed to find all unique `CustomerID`s from the `Orders` table.",
          query := "SELECT DISTINCT CustomerID FROM Orders;",
          tables := [ordersTable] },
        { explanation := "The subquery returns a list of `CustomerID`s.",
          query := "-- Subquery Result",
          tables := [mkT "Subquery Result" ["CustomerID"]
            (customerIDsInOrders.map (fun id => mkRow [("CustomerID", .num id)]))] },
        { explanation := "Then, the outer query runs. It selects customers from the `Customers` table whose `CustomerID` is in the list returned by the subquery.",
          query := "SELECT *\nFROM Customers\nWHERE CustomerID IN (" ++
            String.intercalate ", " (customerIDsInOrders.map toString) ++ ");",
          tables := [customersTable] },
        { explanation := "The final result contains only the customers who have placed an order. Note CustomerID 4 is excluded and CustomerID 5 from orders has no match in Customers.",
          query := "SELECT * FROM Customers\nWHERE CustomerID IN (SELECT DISTINCT CustomerID FROM Orders);",
          tables := [mkT "Result" customersCols
            ((customersRows.filter (fun c => customerIDsInOrders.contains (rowInt c "CustomerID"))).map
              (fun r => { r with highlight := true }))] }] }] }

def topicCTE : Topic := {
  description := "A Common Table Expression (CTE) allows you to define a temporary, named result set that you can reference within a SELECT, INSERT, UPDATE, or DELETE statement. It helps to simplify complex queries.",
  syntaxStr := "WITH cte_name (column_list) AS (\n  SELECT ...\n)\nSELECT ... FROM cte_name;",
  useCase := "Use CTEs to break down complex logic into readable, logical steps, such as filtering a set of data first and then joining it to another table.",
  examples := [
    { title := "Find orders from USA customers",
      steps := [
        { explanation := "First, define a CTE named `USA_Customers` to select only customers from the USA.",
          query := "WITH USA_Customers AS (\n  SELECT CustomerID, Name FROM Customers WHERE Country = 'USA'\n)...",
          tables := [customersTable] },
        { explanation := "The CTE creates a temporary, in-memory table with just the USA customers.",
          query := "-- CTE Result: USA_Customers",
          -- the filtered rows keep the Country key although the columns list
          -- holds only CustomerID and Name
          tables := [mkT "USA_Customers (CTE)" ["CustomerID", "Name"]
            (customersRows.filter (fun c => rowStr c "Country" == "USA"))] },
        { explanation := "Finally, join this CTE with the `Orders` table to get the final result.",
          query := "... SELECT u.Name, o.Product\nFROM USA_Customers u\nJOIN Orders o ON u.CustomerID = o.CustomerID;",
          tables := [mkT "Result" ["Name", "Product"] [
            { cells := [("Name", .str "Alice"), ("Product", .str "Laptop")], highlight := true },
            { cells := [("Name", .str "Alice"), ("Product", .str "Keyboard")], highlight := true },
            { cells := [("Name", .str "Charlie"), ("Product", .str "Monitor")], highlight := true }]] }] }] }

/-- The window-function comparator:
`a.Department.localeCompare(b.Department) || b.Salary - a.Salary`
(a zero compare result is falsy, so `||` falls through to the salaries). -/
def deptLocaleThenSalaryDesc (a b : Row) : Int :=
  let d := compareStr (rowStr a "Department") (rowStr b "Department")
  if d = 0 then rowInt b "Salary" - rowInt a "Salary" else d

def topicWindowFunctions : Topic := {
  description := "A window function performs a calculation across a set of table rows that are somehow related to the current row. Unlike aggregate functions, window functions do not cause rows to become grouped into a single output row.",
  syntaxStr := "SELECT ...,\n  FUNCTION_NAME() OVER (PARTITION BY ... ORDER BY ...) AS alias\nFROM table_name;",
  useCase := "Use them for tasks like ranking results within categories (e.g., top employees by sales per region) or calculating running totals.",
  examples := [
    { title := "RANK() by salary per department",
      steps := [
        { explanation := "Start with the `Employees` table. We want to rank employees by salary within each department.",
          query := "-- Base Table",
          tables := [employeesTable] },
        { explanation := "The `PARTITION BY Department` clause divides the rows into partitions (groups). The function is applied independently to each partition.",
          query := "-- Intermediate: Partitioning",
          tables := [
            mkT "Partition: Engineering" employeesCols
              (employeesRows.filter (fun e => rowStr e "Department" == "Engineering")),
            mkT "Partition: HR" employeesCols
              (employeesRows.filter (fun e => rowStr e "Department" == "HR")),
            mkT "Partition: Sales" employeesCols
              (employeesRows.filter (fun e => rowStr e "Department" == "Sales"))] },
        { explanation := "Within each partition, `ORDER BY Salary DESC` sorts the rows. Then, `RANK()` assigns a rank. Note that ties (e.g., Frank and Grace) receive the same rank, and a gap appears in the sequence afterward.",
          query := "SELECT Name, Department, Salary,\n  RANK() OVER (PARTITION BY Department ORDER BY Salary DESC) AS DeptRank\nFROM Employees;",
          tables := [mkT "Result" ["Name", "Department", "Salary", "DeptRank"]
            (sortByCmp deptLocaleThenSalaryDesc [
              mkRow [("Name", .str "Ivan"), ("Department", .str "Engineering"), ("Salary", .num 110000), ("DeptRank", .num 1)],
              mkRow [("Name", .str "Heidi"), ("Department", .str "Engineering"), ("Salary", .num 95000), ("DeptRank", .num 2)],
              mkRow [("Name", .str "Judy"), ("Department", .str "HR"), ("Salary", .num 60000), ("DeptRank", .num 1)],
              mkRow [("Name", .str "Mallory"), ("Department", .str "Sales"), ("Salary", .num 80000), ("DeptRank", .num 1)],
              mkRow [("Name", .str "Frank"), ("Department", .str "Sales"), ("Salary", .num 75000), ("DeptRank", .num 2)],
              mkRow [("Name", .str "Grace"), ("Department", .str "Sales"), ("Salary", .num 75000), ("DeptRank", .num 2)]])] }] },
    { title := "ROW_NUMBER() by salary per department",
      steps := [
        { explanation := "Start with the `Employees` table.",
          query := "-- Base Table",
          tables := [employeesTable] },
        { explanation := "Like `RANK()`, this function operates over partitions. However, `ROW_NUMBER()` assigns a unique, sequential number to each row within the partition, even if there are ties.",
          query := "SELECT Name, Department, Salary,\n  ROW_NUMBER() OVER (PARTITION BY Department ORDER BY Salary DESC) AS RowNum\nFROM Employees;",
          tables := [mkT "Result" ["Name", "Department", "Salary", "RowNum"]
            (sortByCmp deptLocaleThenSalaryDesc [
              mkRow [("Name", .str "Ivan"), ("Department", .str "Engineering"), ("Salary", .num 110000), ("RowNum", .num 1)],
              mkRow [("Name", .str "Heidi"), ("Department", .str "Engineering"), ("Salary", .num 95000), ("RowNum", .num 2)],
              mkRow [("Name", .str "Judy"), ("Department", .str "HR"), ("Salary", .num 60000), ("RowNum", .num 1)],
              mkRow [("Name", .str "Mallory"), ("Department", .str "Sales"), ("Salary", .num 80000), ("RowNum", .num 1)],
              mkRow [("Name", .str "Grace"), ("Department", .str "Sales"), ("Salary", .num 75000), ("RowNum", .num 2)],
              mkRow [("Name", .str "Frank"), ("Department", .str "Sales"), ("Salary", .num 75000), ("RowNum", .num 3)]])] }] }] }

/-- `{...cells, k: v}` where `k` is already present: replace in place. -/
def updateCell (cells : List (String × Value)) (k : String) (v : Value) : List (String × Value) :=
  cells.map (fun c => if c.1 == k then (k, v) else c)

def topicDML : Topic := {
  description := "Data Manipulation Language (DML) is used to manage data within schema objects. The main DML statements are INSERT, UPDATE, and DELETE.",
  syntaxStr := "INSERT INTO table_name ...\nUPDATE table_name SET ...\nDELETE FROM table_name WHERE ...",
  useCase := "Use DML to add new data, modify existing data, or remove data from tables.",
  examples := [
    { title := "INSERT a new row",
      steps := [
        { explanation := "This is the `Customers` table before the operation.",
          query := "-- Before INSERT",
          tables := [customersTable] },
        { explanation := "The `INSERT INTO` statement adds a new row to the table with the specified values.",
          query := "INSERT INTO Customers (CustomerID, Name, Country) VALUES (5, 'Eve', 'UK');",
          tables := [{ customersTable with
            name := some "Result"
            rows := some (customersRows ++
              [{ cells := [("CustomerID", .num 5), ("Name", .str "Eve"), ("Country", .str "UK")],
                 inserted := true }]) }] }] },
    { title := "UPDATE an existing row",
      steps := [
        { explanation := "This is the `Customers` table before the operation.",
          query := "-- Before UPDATE",
          tables := [customersTable] },
        { explanation := "The `UPDATE` statement modifies existing records. Here, we change the `Country` for `CustomerID` 4 to 'Germany'.",
          query := "UPDATE Customers\nSET Country = 'Germany'\nWHERE CustomerID = 4;",
          tables := [{ customersTable with
            name := some "Result"
            rows := some (customersRows.map (fun r =>
              if rowInt r "CustomerID" == 4 then
                { r with
                  cells := updateCell r.cells "Country" (.str "Germany")
                  updated := true
                  updatedCells := ["Country"] }
              else r)) }] }] },
    { title := "DELETE a row",
      steps := [
        { explanation := "This is the `Customers` table before the operation. The row to be deleted is highlighted.",
          query := "-- Before DELETE",
          tables := [{ customersTable with
            rows := some (customersRows.map (fun r =>
              if rowInt r "CustomerID" == 2 then { r with unmatched := true } else r)) }] },
        { explanation := "The `DELETE` statement removes existing records. Here, we remove the customer with `CustomerID` 2.",
          query := "DELETE FROM Customers WHERE CustomerID = 2;",
          tables := [{ customersTable with
            name := some "Result"
            rows := some (customersRows.filter (fun r => rowInt r "CustomerID" != 2)) }] }] }] }

def topicDDL : Topic := {
  description := "Data Definition Language (DDL) is used to create and modify the structure of database objects like tables. The main DDL statements are CREATE, ALTER, and DROP.",
  syntaxStr := "CREATE TABLE table_name (...)\nALTER TABLE table_name ...\nDROP TABLE table_name;",
  useCase := "Use DDL when setting up or changing the database schema, such as creating a new table or adding a column to an existing one.",
  examples := [
    { title := "CREATE a new table",
      steps := [
        { explanation := "The `CREATE TABLE` statement defines a new table, specifying its name and the names and data types of each column.",
          query := "CREATE TABLE Products (\n  ProductID INT,\n  Name VARCHAR(255),\n  Price DECIMAL(10, 2)\n);",
          tables := [mkT "Products (New)" ["ProductID", "Name", "Price"] []] }] },
    { title := "ALTER an existing table",
      steps := [
        { explanation := "This is the `Customers` table before the operation.",
          query := "-- Before ALTER",
          tables := [customersTable] },
        { explanation := "The `ALTER TABLE` statement modifies a table definition. Here, we add a new `Email` column.",
          query := "ALTER TABLE Customers\nADD Email VARCHAR(255);",
          tables := [{ customersTable with
            name := some "Result"
            columns := some (customersCols ++ ["Email"])
            rows := some (customersRows.map (fun r =>
              { r with cells := r.cells ++ [("Email", .vnull)] })) }] }] }] }

/-- The catalog: topic name to topic, insertion order preserved. -/
def sqlTopics : List (String × Topic) := [
  ("SELECT", topicSELECT),
  ("WHERE", topicWHERE),
  ("INNER JOIN", topicINNERJOIN),
  ("LEFT JOIN", topicLEFTJOIN),
  ("RIGHT JOIN", topicRIGHTJOIN),
  ("FULL OUTER JOIN", topicFULLOUTERJOIN),
  ("GROUP BY", topicGROUPBY),
  ("ORDER BY", topicORDERBY),
  ("UNION", topicUNION),
  ("Subquery", topicSubquery),
  ("CTE", topicCTE),
  ("Window Functions", topicWindowFunctions),
  ("DML (Data Manipulation)", topicDML),
  ("DDL (Data Definition)", topicDDL)]

/-- Catalog lookup by topic name. -/
def catTopic (name : String) : Option Topic :=
  (sqlTopics.find? (fun p => p.1 == name)).map Prod.snd

def catExample (name : String) (i : Nat) : Option Example :=
  (catTopic name).bind (fun t => t.examples.get? i)

def catStep (name : String) (i j : Nat) : Option Step :=
  (catExample name i).bind (fun e => e.steps.get? j)

def catTable (name : String) (i j k : Nat) : Option TableData :=
  (catStep name i j).bind (fun s => s.tables.get? k)

-- --- Table renderer (src/index.tsx lines 784..822) ---

/-- `String(value)`: the JS string form of a value. -/
def jsString : Value → String
  | .str s => s
  | .num n => toString n
  | .vnull => "null"

/-- `String(value)` on a possibly-undefined access. -/
def jsStringOpt : Option Value → String
  | some v => jsString v
  | none => "undefined"

/-- `value === null || value === undefined` (line 807). -/
def isNullish : Option Value → Bool
  | none => true
  | some .vnull => true
  | some _ => false

/-- One rendered cell: `isNull ? 'NULL' : String(value)` (line 811). -/
def renderCell (r : Row) (header : String) : String :=
  let value := getValue r header
  if isNullish value then "NULL" else jsStringOpt value

/-- The chained conditional of line 802:
`row.highlight ? 'highlight' : row.unmatched ? 'unmatched' : row.inserted ? 'inserted' : row.updated ? 'updated' : ''`. -/
def rowClass (row : Row) : String :=
  if row.highlight then "highlight"
  else if row.unmatched then "unmatched"
  else if row.inserted then "inserted"
  else if row.updated then "updated"
  else ""

/-- Modelled from the spec: the tagged row-classification variant of
design note §9 ({Highlighted, Unmatched, Inserted, Updated, Normal}),
with the §3 first-match precedence highlight > unmatched > inserted >
updated; for comparison against the source's `rowClass`. -/
inductive RowKind
  | Highlighted
  | Unmatched
  | Inserted
  | Updated
  | Normal
deriving DecidableEq

/-- Modelled from the spec: first-match precedence over the flags. -/
def classifyRow (row : Row) : RowKind :=
  if row.highlight then .Highlighted
  else if row.unmatched then .Unmatched
  else if row.inserted then .Inserted
  else if row.updated then .Updated
  else .Normal

/-- The CSS class each spec variant stands for in the source. -/
def RowKind.toClass : RowKind → String
  | .Highlighted => "highlight"
  | .Unmatched => "unmatched"
  | .Inserted => "inserted"
  | .Updated => "updated"
  | .Normal => ""

/-- `Object.keys(row)` restricted to the data cells (the renderer only
reaches it for tables whose `columns` is absent). -/
def rowKeys (r : Row) : List String := r.cells.map Prod.fst

/-- What the Table component produces: the fixed empty-set placeholder,
or a header list and the grid of rendered cell texts. -/
inductive RenderResult
  | emptyMessage
  | rendered (headers : List String) (body : List (List String))
deriving DecidableEq

/-- The Table component (lines 784..822): `data` may be missing, its
`rows` may be missing or empty; otherwise headers come from `columns`
(`[]` is truthy in JS, so an empty columns list is used as-is) or the
first row's keys, and each body cell renders through `renderCell`. -/
def renderTable (data : Option TableData) : RenderResult :=
  match data with
  | none => .emptyMessage
  | some d =>
    match d.rows with
    | none => .emptyMessage
    | some [] => .emptyMessage
    | some (r0 :: rs) =>
      let headers := d.columns.getD (rowKeys r0)
      .rendered headers ((r0 :: rs).map (fun r => headers.map (fun h => renderCell r h)))

-- --- Playback/Reveal engine (src/index.tsx lines 870..905) ---

/-- One intersection event (line 879):
`setVisibleSteps(prev => [...prev, index])` — an unconditional append. -/
def revealStep (revealed : List Nat) (idx : Nat) : List Nat :=
  revealed ++ [idx]

/-- `setVisibleSteps([])` on example change (line 891). -/
def resetRevealed : List Nat := []

/-- The revealed state after a sequence of intersection events following
a reset. -/
def runEvents (events : List Nat) : List Nat :=
  events.foldl revealStep resetRevealed

/-- `visibleSteps.includes(index)` (line 932). -/
def isVisible (revealed : List Nat) (idx : Nat) : Bool :=
  revealed.contains idx

-- --- Catalog invariant checks (for the §8 catalog property) ---

/-- Every data-cell key of the row appears in the columns list. -/
def rowKeysIn (cols : List String) (r : Row) : Bool :=
  r.cells.all (fun c => cols.contains c.1)

/-- A table with a columns list has no row cell outside it. -/
def tableColsClosed (t : TableData) : Bool :=
  match t.columns, t.rows with
  | some cols, some rs => rs.all (rowKeysIn cols)
  | _, _ => true

/-- The full §8 catalog invariant as claimed: every example has at least
one step, and every table is column-closed. -/
def catalogOk : Bool :=
  sqlTopics.all (fun p => p.2.examples.all (fun ex =>
    !ex.steps.isEmpty && ex.steps.all (fun st => st.tables.all tableColsClosed)))

/-- Every example of the catalog has a nonempty step list. -/
def catalogStepsNonempty : Bool :=
  sqlTopics.all (fun p => p.2.examples.all (fun ex => !ex.steps.isEmpty))

/-- The tables exempted from column-closure: (topic, example index,
step index, table index). -/
def colsClosedExceptions : List (String × Nat × Nat × Nat) :=
  [("ORDER BY", 2, 0, 0), ("CTE", 0, 1, 0)]

/-- Column-closure over the whole catalog, skipping the listed
exceptions. -/
def catalogColsClosedExcept : Bool :=
  sqlTopics.all (fun p => (p.2.examples.enum.all (fun ei =>
    (ei.2.steps.enum.all (fun si =>
      (si.2.tables.enum.all (fun ti =>
        colsClosedExceptions.contains (p.1, ei.1, si.1, ti.1) || tableColsClosed ti.2)))))))

-- --- AI response formatter (src/index.tsx lines 941..954) ---

/-- What the JS regex `.` matches: any character but a line terminator. -/
def isDotChar (c : Char) : Bool := !(c == '\n' || c == '\r')

/-- What the JS regex `\s` matches, restricted to ASCII (no other
whitespace occurs in the inputs considered). -/
def isJsWs (c : Char) : Bool :=
  c == ' ' || c == '\t' || c == '\n' || c == '\r' || c == '\x0b' || c == '\x0c'

/-- `p` is an initial segment of `l`. -/
def startsWithChars : List Char → List Char → Bool
  | [], _ => true
  | _ :: _, [] => false
  | p :: ps, c :: cs => p == c && startsWithChars ps cs

/-- The closing half of `/\*\*(.*?)\*\*/` from just after the opening
`**`: lazily collect dot-characters until the earliest `**`, failing at
a line terminator or the end. Returns the captured text and the
remainder after the closing `**`. -/
def findBoldClose : List Char → Option (List Char × List Char)
  | [] => none
  | c :: rest =>
    match rest with
    | r :: rest2 =>
      if c = '*' && r = '*' then some ([], rest2)
      else if isDotChar c then (findBoldClose rest).map (fun p => (c :: p.1, p.2))
      else none
    | [] => none

/-- The global replace `/\*\*(.*?)\*\*/g → <strong>$1</strong>`:
left-to-right scan; where no match starts, advance one character. The
fuel argument (always called with the input's length, which each step
strictly decreases) makes the recursion structural. -/
def boldScanF : Nat → List Char → List Char
  | 0, _ => []
  | _ + 1, [] => []
  | fuel + 1, '*' :: '*' :: rest =>
    match findBoldClose rest with
    | some (inner, rest') =>
      ("<strong>".data ++ inner ++ "</strong>".data) ++ boldScanF fuel rest'
    | none => '*' :: boldScanF fuel ('*' :: rest)
  | fuel + 1, c :: rest => c :: boldScanF fuel rest

def boldScan (l : List Char) : List Char := boldScanF l.length l

/-- The closing half of `/\*(.*?)\*/` from just after the opening `*`. -/
def findItalicClose : List Char → Option (List Char × List Char)
  | [] => none
  | c :: rest =>
    if c = '*' then some ([], rest)
    else if isDotChar c then (findItalicClose rest).map (fun p => (c :: p.1, p.2))
    else none

/-- The global replace `/\*(.*?)\*/g → <em>$1</em>`. -/
def italicScanF : Nat → List Char → List Char
  | 0, _ => []
  | _ + 1, [] => []
  | fuel + 1, '*' :: rest =>
    match findItalicClose rest with
    | some (inner, rest') =>
      ("<em>".data ++ inner ++ "</em>".data) ++ italicScanF fuel rest'
    | none => '*' :: italicScanF fuel rest
  | fuel + 1, c :: rest => c :: italicScanF fuel rest

def italicScan (l : List Char) : List Char := italicScanF l.length l

/-- A match of `\s*[-*] (.*)` at the current position: greedy
whitespace (which may span line breaks), a bullet, one space, then the
greedy dot-character capture. Returns the capture and the remainder. -/
def tryListItem (l : List Char) : Option (List Char × List Char) :=
  match l.dropWhile isJsWs with
  | b :: s :: rest =>
    if (b = '-' || b = '*') && s = ' ' then
      some (rest.takeWhile isDotChar, rest.dropWhile isDotChar)
    else none
  | _ => none

/-- The global multiline replace `/^\s*[-*] (.*)/gim → <ul><li>$1</li></ul>`:
`atStart` records whether the current position follows a line break (or
is the start of the input), where `^` matches. -/
def listScanF : Nat → Bool → List Char → List Char
  | 0, _, _ => []
  | _ + 1, _, [] => []
  | fuel + 1, atStart, c :: rest =>
    if atStart then
      match tryListItem (c :: rest) with
      | some (item, rest') =>
        ("<ul><li>".data ++ item ++ "</li></ul>".data) ++ listScanF fuel false rest'
      | none => c :: listScanF fuel (c == '\n') rest
    else c :: listScanF fuel (c == '\n') rest

def listScan (atStart : Bool) (l : List Char) : List Char := listScanF l.length atStart l

/-- A match of `<\/ul>\s?<ul>` at the current position (the optional
whitespace is tried greedily first); returns the remainder after it. -/
def tryCollapse (l : List Char) : Option (List Char) :=
  if startsWithChars "</ul>".data l then
    match l.drop 5 with
    | c :: r2 =>
      if isJsWs c && startsWithChars "<ul>".data r2 then some (r2.drop 4)
      else if startsWithChars "<ul>".data (c :: r2) then some ((c :: r2).drop 4)
      else none
    | [] => none
  else none

/-- The global replace `/<\/ul>\s?<ul>/g → ''` (collapse consecutive
lists). -/
def collapseScanF : Nat → List Char → List Char
  | 0, _ => []
  | _ + 1, [] => []
  | fuel + 1, c :: rest =>
    match tryCollapse (c :: rest) with
    | some rest' => collapseScanF fuel rest'
    | none => c :: collapseScanF fuel rest

def collapseScan (l : List Char) : List Char := collapseScanF l.length l

/-- The global replace `/\n\n/g → </p><p>`. -/
def paraScan : List Char → List Char
  | '\n' :: '\n' :: rest => "</p><p>".data ++ paraScan rest
  | c :: rest => c :: paraScan rest
  | [] => []

/-- `formatAiResponse` (lines 941..954): bold, then italic, then list
items, then list collapsing, then paragraph breaks, then the outer
`<p>…</p>` wrapper. -/
def formatAiResponse (text : String) : String :=
  let h1 := boldScan text.data
  let h2 := italicScan h1
  let h3 := listScan true h2
  let h4 := collapseScan h3
  let h5 := paraScan h4
  "<p>" ++ String.mk h5 ++ "</p>"

-- --- Explanation request client (src/index.tsx lines 957..998) ---

/-- The pieces of QueryExplainer state that `callGemini` touches. -/
structure ClientState where
  query : String
  explanation : String
  isLoading : Bool
  error : String
deriving DecidableEq

/-- The parsed JSON body and status of the `/api/explain` response:
`ok` is `response.ok`; a missing field is `none`. -/
structure ApiResponse where
  ok : Bool
  errorField : Option String
  explanationField : Option String
deriving DecidableEq

/-- JS `a || b` on an optional string: `undefined`, `null` and `""` are
falsy. -/
def jsOrString : Option String → String → String
  | some s, d => if s = "" then d else s
  | none, d => d

/-- `query.trim()`: strip leading and trailing whitespace. -/
def jsTrim (s : String) : String :=
  String.mk (((s.data.dropWhile isJsWs).reverse.dropWhile isJsWs).reverse)

/-- The outcome of one `callGemini` invocation: the state afterwards and
how many network requests were issued. -/
structure CallResult where
  state : ClientState
  requests : Nat
deriving DecidableEq

def emptyQueryError : String := "Please enter a SQL query."

def genericServerError : String := "Something went wrong on the server."

/-- `callGemini` (lines 963..998) against an abstract `/api/explain`
response: an empty trimmed query sets the error and returns before any
fetch; otherwise loading starts, one request is made, a non-ok response
raises `data.error || genericServerError` which the catch renders as
`An error occurred: ${message}`, an ok response stores the formatted
explanation, and `finally` clears the loading flag. The success branch
formats `data.explanation` (always present on ok responses from
src/api/explain.ts). -/
def callGemini (st : ClientState) (resp : ApiResponse) : CallResult :=
  if jsTrim st.query = "" then
    { state := { st with error := emptyQueryError }, requests := 0 }
  else
    let st1 := { st with isLoading := true, error := "", explanation := "" }
    let st2 :=
      if resp.ok then
        { st1 with explanation := formatAiResponse (resp.explanationField.getD "") }
      else
        { st1 with error := "An error occurred: " ++ jsOrString resp.errorField genericServerError }
    { state := { st2 with isLoading := false }, requests := 1 }

-- --- Line-level description of the list substitution (for comparison
-- with the scanning implementation) ---

/-- `p` occurs as a contiguous subsequence of `l`. -/
def containsSeq (p : List Char) : List Char → Bool
  | [] => startsWithChars p []
  | c :: t => startsWithChars p (c :: t) || containsSeq p t

/-- Modelled from the spec: a single line (no line terminators) matching
`\s*[-*] (.*)` in full — optional whitespace, a bullet, one space —
yields the captured item text. -/
def bulletSplit (line : List Char) : Option (List Char) :=
  match line.dropWhile isJsWs with
  | b :: s :: rest => if (b = '-' || b = '*') && s = ' ' then some rest else none
  | _ => none

/-- Modelled from the spec: what the list substitution does to one line —
a bullet line is wrapped individually as a list item, any other line is
left unchanged. -/
def lineTransform (line : List Char) : List Char :=
  match bulletSplit line with
  | some item => "<ul><li>".data ++ item ++ "</li></ul>".data
  | none => line

/-- Join lines with single newline separators (the inverse of splitting
a text into lines). -/
def joinLines : List (List Char) → List Char
  | [] => []
  | [l] => l
  | l :: ls => l ++ '\n' :: joinLines ls

end SQLViz

namespace SQLViz

-- --- Helper lemmas about the formatter scans ---

theorem dropWhile_length_le (p : Char → Bool) :
    ∀ l : List Char, (l.dropWhile p).length ≤ l.length := by
  intro l
  induction l with
  | nil => simp [List.dropWhile]
  | cons c t ih =>
    simp only [List.dropWhile]
    cases hp : p c
    · simp
    · simp
      exact Nat.le_succ_of_le ih

theorem tryListItem_length {l item rest' : List Char}
    (h : tryListItem l = some (item, rest')) : rest'.length < l.length := by
  unfold tryListItem at h
  rcases hd : l.dropWhile isJsWs with _ | ⟨b, _ | ⟨s, rest⟩⟩ <;> rw [hd] at h
  · simp at h
  · simp at h
  · by_cases hb : (b = '-' || b = '*') && s = ' '
    · simp [hb] at h
      have h1 : (l.dropWhile isJsWs).length ≤ l.length := dropWhile_length_le isJsWs l
      have h2 : (rest.dropWhile isDotChar).length ≤ rest.length :=
        dropWhile_length_le isDotChar rest
      rw [hd] at h1
      simp at h1
      rw [← h.2]
      omega
    · simp [hb] at h

theorem startsWithChars_length :
    ∀ (p l : List Char), startsWithChars p l = true → p.length ≤ l.length := by
  intro p
  induction p with
  | nil => simp
  | cons x xs ih =>
    intro l h
    cases l with
    | nil => simp [startsWithChars] at h
    | cons c cs =>
      simp [startsWithChars] at h
      have := ih cs h.2
      simp
      omega

theorem tryCollapse_length {l rest' : List Char}
    (h : tryCollapse l = some rest') : rest'.length < l.length := by
  unfold tryCollapse at h
  by_cases hs : startsWithChars "</ul>".data l
  · have h5 : (5 : Nat) ≤ l.length := by simpa using startsWithChars_length _ l hs
    rw [if_pos hs] at h
    rcases hd : l.drop 5 with _ | ⟨c, r2⟩ <;> rw [hd] at h
    · simp at h
    · have hlen : r2.length + 1 = l.length - 5 := by
        have h6 := List.length_drop 5 l
        rw [hd] at h6
        simpa using h6
      by_cases h1 : isJsWs c && startsWithChars "<ul>".data r2
      · simp [h1] at h
        have h2 : (r2.drop 4).length = r2.length - 4 := List.length_drop 4 r2
        rw [← h]
        omega
      · by_cases h2 : startsWithChars "<ul>".data (c :: r2)
        · simp [h1, h2] at h
          have h3 : (r2.drop 3).length = r2.length - 3 := List.length_drop 3 r2
          rw [← h]
          omega
        · simp [h1, h2] at h
  · rw [if_neg hs] at h
    simp at h

/-- `listScanF` does not depend on the fuel, as long as the fuel covers
the input's length. -/
theorem listScanF_fuel :
    ∀ (f1 f2 : Nat) (b : Bool) (l : List Char),
      l.length ≤ f1 → l.length ≤ f2 → listScanF f1 b l = listScanF f2 b l := by
  intro f1
  induction f1 with
  | zero =>
    intro f2 b l h1 h2
    have hl : l = [] := by cases l with | nil => rfl | cons a t => simp at h1
    subst hl
    cases f2 <;> rfl
  | succ f ih =>
    intro f2 b l h1 h2
    cases l with
    | nil => cases f2 <;> rfl
    | cons c rest =>
      cases f2 with
      | zero => simp at h2
      | succ g =>
        have hr1 : rest.length ≤ f := by simp at h1; omega
        have hr2 : rest.length ≤ g := by simp at h2; omega
        cases b with
        | false => simp [listScanF, ih g (c == '\n') rest hr1 hr2]
        | true =>
          cases hti : tryListItem (c :: rest) with
          | none => simp [listScanF, hti, ih g (c == '\n') rest hr1 hr2]
          | some p =>
            have hlt := tryListItem_length hti
            simp at hlt
            simp [listScanF, hti,
              ih g false p.2 (by omega) (by omega)]

/-- `collapseScanF` does not depend on the fuel, as long as the fuel
covers the input's length. -/
theorem collapseScanF_fuel :
    ∀ (f1 f2 : Nat) (l : List Char),
      l.length ≤ f1 → l.length ≤ f2 → collapseScanF f1 l = collapseScanF f2 l := by
  intro f1
  induction f1 with
  | zero =>
    intro f2 l h1 h2
    have hl : l = [] := by cases l with | nil => rfl | cons a t => simp at h1
    subst hl
    cases f2 <;> rfl
  | succ f ih =>
    intro f2 l h1 h2
    cases l with
    | nil => cases f2 <;> rfl
    | cons c rest =>
      cases f2 with
      | zero => simp at h2
      | succ g =>
        have hr1 : rest.length ≤ f := by simp at h1; omega
        have hr2 : rest.length ≤ g := by simp at h2; omega
        cases hti : tryCollapse (c :: rest) with
        | none => simp [collapseScanF, hti, ih g rest hr1 hr2]
        | some rest' =>
          have hlt := tryCollapse_length hti
          simp at hlt
          simp [collapseScanF, hti, ih g rest' (by omega) (by omega)]

theorem listScan_false_cons (c : Char) (rest : List Char) :
    listScan false (c :: rest) = c :: listScan (c == '\n') rest := rfl

theorem listScan_newline (rest : List Char) :
    listScan false ('\n' :: rest) = '\n' :: listScan true rest := rfl

theorem listScan_true_none {c : Char} {rest : List Char}
    (h : tryListItem (c :: rest) = none) :
    listScan true (c :: rest) = c :: listScan (c == '\n') rest := by
  simp only [listScan, List.length_cons, listScanF, h, if_true]

theorem listScan_true_some {c : Char} {rest item rest' : List Char}
    (h : tryListItem (c :: rest) = some (item, rest')) :
    listScan true (c :: rest) =
      ("<ul><li>".data ++ item ++ "</li></ul>".data) ++ listScan false rest' := by
  have hlt := tryListItem_length h
  simp at hlt
  simp only [listScan, List.length_cons, listScanF, h, if_true]
  exact congrArg (fun x => ("<ul><li>".data ++ item ++ "</li></ul>".data) ++ x)
    (listScanF_fuel rest.length rest'.length false rest' (by omega) (Nat.le_refl _))

theorem listScan_false_append (l : List Char) (rest : List Char)
    (h : ∀ c ∈ l, (c == '\n') = false) :
    listScan false (l ++ rest) = l ++ listScan false rest := by
  induction l with
  | nil => simp
  | cons c t ih =>
    rw [List.cons_append, listScan_false_cons, h c (by simp),
      ih (fun x hx => h x (by simp [hx]))]
    rfl

theorem mem_of_mem_dropWhile {p : Char → Bool} {c : Char} :
    ∀ {l : List Char}, c ∈ l.dropWhile p → c ∈ l := by
  intro l
  induction l with
  | nil => simp [List.dropWhile]
  | cons a t ih =>
    intro h
    cases hp : p a
    · simp [List.dropWhile, hp] at h
      simpa using h
    · simp [List.dropWhile, hp] at h
      exact List.mem_cons_of_mem a (ih h)

theorem dropWhile_append_any {p : Char → Bool} :
    ∀ (l : List Char), l.any (fun c => !p c) = true →
      ∀ ys, (l ++ ys).dropWhile p = l.dropWhile p ++ ys := by
  intro l
  induction l with
  | nil => simp
  | cons a t ih =>
    intro h ys
    cases hp : p a
    · simp [List.dropWhile, hp]
    · have ht : t.any (fun c => !p c) = true := by
        simp [hp] at h
        simpa using h
      simp [List.dropWhile, hp, ih ht ys]

theorem takeWhile_all {p : Char → Bool} :
    ∀ {xs : List Char}, (∀ c ∈ xs, p c = true) → xs.takeWhile p = xs := by
  intro xs
  induction xs with
  | nil => simp
  | cons a t ih =>
    intro h
    simp [List.takeWhile, h a (by simp), ih (fun c hc => h c (by simp [hc]))]

theorem dropWhile_all {p : Char → Bool} :
    ∀ {xs : List Char}, (∀ c ∈ xs, p c = true) → xs.dropWhile p = [] := by
  intro xs
  induction xs with
  | nil => simp
  | cons a t ih =>
    intro h
    simp [List.dropWhile, h a (by simp), ih (fun c hc => h c (by simp [hc]))]

theorem takeWhile_all_append {p : Char → Bool} :
    ∀ {xs : List Char}, (∀ c ∈ xs, p c = true) →
      ∀ ys, (xs ++ ys).takeWhile p = xs ++ ys.takeWhile p := by
  intro xs
  induction xs with
  | nil => simp
  | cons a t ih =>
    intro h ys
    simp [List.takeWhile, h a (by simp), ih (fun c hc => h c (by simp [hc])) ys]

theorem dropWhile_all_append {p : Char → Bool} :
    ∀ {xs : List Char}, (∀ c ∈ xs, p c = true) →
      ∀ ys, (xs ++ ys).dropWhile p = ys.dropWhile p := by
  intro xs
  induction xs with
  | nil => simp
  | cons a t ih =>
    intro h ys
    simp [List.dropWhile, h a (by simp), ih (fun c hc => h c (by simp [hc])) ys]

/-- A full bullet-line match: scanning `line ++ sep` from the line start
matches `\s*[-*] (.*)` exactly up to the end of the line, capturing what
`bulletSplit` captures, and leaves `sep` (empty, or a newline and the
following text) unconsumed. -/
theorem tryListItem_line_some {line item sep : List Char}
    (hdot : ∀ c ∈ line, isDotChar c = true)
    (hnw : line.any (fun c => !isJsWs c) = true)
    (hb : bulletSplit line = some item)
    (hsep : sep = [] ∨ ∃ rs, sep = '\n' :: rs) :
    tryListItem (line ++ sep) = some (item, sep) := by
  unfold tryListItem
  rw [dropWhile_append_any line hnw sep]
  unfold bulletSplit at hb
  rcases hd : line.dropWhile isJsWs with _ | ⟨b, _ | ⟨s, rest2⟩⟩ <;> rw [hd] at hb
  · simp at hb
  · simp at hb
  · by_cases hcond : (b = '-' || b = '*') && s = ' '
    · have hitem : rest2 = item := by simpa [hcond] using hb
      subst hitem
      have hdots : ∀ c ∈ rest2, isDotChar c = true := by
        intro c hc
        exact hdot c (mem_of_mem_dropWhile (p := isJsWs) (by rw [hd]; simp [hc]))
      rcases hsep with rfl | ⟨rs, rfl⟩
      · simp only [List.append_nil]
        simp [hcond, takeWhile_all hdots, dropWhile_all hdots]
      · simp only [List.cons_append]
        simp [hcond, takeWhile_all_append hdots, dropWhile_all_append hdots,
          List.takeWhile, List.dropWhile, isDotChar]
    · simp [hcond] at hb

/-- A non-bullet line never matches at its line start: the whitespace
prefix stops inside the line (it has a non-whitespace character), and
the bullet test fails as it fails for the line alone. -/
theorem tryListItem_line_none {line sep : List Char}
    (hnw : line.any (fun c => !isJsWs c) = true)
    (hb : bulletSplit line = none)
    (hsep : sep = [] ∨ ∃ rs, sep = '\n' :: rs) :
    tryListItem (line ++ sep) = none := by
  unfold tryListItem
  rw [dropWhile_append_any line hnw sep]
  unfold bulletSplit at hb
  rcases hd : line.dropWhile isJsWs with _ | ⟨b, _ | ⟨s, rest2⟩⟩ <;> rw [hd] at hb
  · rcases hsep with rfl | ⟨rs, rfl⟩
    · simp
    · cases rs with
      | nil => simp
      | cons r rs' => simp
  · rcases hsep with rfl | ⟨rs, rfl⟩
    · simp
    · simp
  · by_cases hcond : (b = '-' || b = '*') && s = ' '
    · simp [hcond] at hb
    · simp [List.cons_append, hcond]

theorem dot_ne_nl {c : Char} (h : isDotChar c = true) : (c == '\n') = false := by
  unfold isDotChar at h
  simp at h ⊢
  exact h.1

theorem any_ne_nil {l : List Char} {p : Char → Bool} (h : l.any p = true) : l ≠ [] := by
  cases l <;> simp_all

/-- The list substitution, line by line: on a text whose lines each
consist of dot characters only (no line terminators) and contain at
least one non-whitespace character, the scan wraps exactly the lines
matching `\s*[-*] (.*)` as individual list items and leaves the other
lines unchanged. -/
theorem listScan_lines :
    ∀ (ls : List (List Char)),
      (∀ line ∈ ls, ∀ c ∈ line, isDotChar c = true) →
      (∀ line ∈ ls, line.any (fun c => !isJsWs c) = true) →
      listScan true (joinLines ls) = joinLines (ls.map lineTransform) := by
  intro ls
  induction ls with
  | nil => intro _ _; rfl
  | cons line ls' ih =>
    intro hdot hnw
    have hdl : ∀ c ∈ line, isDotChar c = true := hdot line (by simp)
    have hnl : line.any (fun c => !isJsWs c) = true := hnw line (by simp)
    have hne : line ≠ [] := any_ne_nil hnl
    obtain ⟨c, t, rfl⟩ : ∃ c t, line = c :: t := by
      cases line with
      | nil => exact absurd rfl hne
      | cons c t => exact ⟨c, t, rfl⟩
    cases ls' with
    | nil =>
      show listScan true (c :: t) = joinLines [lineTransform (c :: t)]
      cases hbs : bulletSplit (c :: t) with
      | some item =>
        have hts := tryListItem_line_some hdl hnl hbs (Or.inl rfl)
        rw [List.append_nil] at hts
        rw [listScan_true_some hts]
        have hltc : lineTransform (c :: t) =
            "<ul><li>".data ++ item ++ "</li></ul>".data := by
          simp [lineTransform, hbs]
        simp [joinLines, hltc, listScan, listScanF]
      | none =>
        have htn := tryListItem_line_none hnl hbs (Or.inl rfl)
        rw [List.append_nil] at htn
        rw [listScan_true_none htn]
        rw [dot_ne_nl (hdl c (by simp))]
        have hpass : listScan false t = t := by
          have h0 := listScan_false_append t []
            (fun x hx => dot_ne_nl (hdl x (by simp [hx])))
          simpa [listScan, listScanF] using h0
        rw [hpass]
        have hltc : lineTransform (c :: t) = c :: t := by
          simp [lineTransform, hbs]
        simp [joinLines, hltc]
    | cons l2 ls'' =>
      have ihr := ih (fun l hl => hdot l (by simp [hl])) (fun l hl => hnw l (by simp [hl]))
      show listScan true ((c :: t) ++ '\n' :: joinLines (l2 :: ls'')) = _
      cases hbs : bulletSplit (c :: t) with
      | some item =>
        have hts := tryListItem_line_some hdl hnl hbs
          (Or.inr ⟨joinLines (l2 :: ls''), rfl⟩)
        rw [List.cons_append] at hts ⊢
        rw [listScan_true_some hts, listScan_newline, ihr]
        have hltc : lineTransform (c :: t) =
            "<ul><li>".data ++ item ++ "</li></ul>".data := by
          simp [lineTransform, hbs]
        simp [joinLines, hltc, List.map_cons, List.append_assoc]
      | none =>
        have htn := tryListItem_line_none hnl hbs
          (Or.inr ⟨joinLines (l2 :: ls''), rfl⟩)
        rw [List.cons_append] at htn ⊢
        rw [listScan_true_none htn]
        rw [dot_ne_nl (hdl c (by simp))]
        rw [listScan_false_append t ('\n' :: joinLines (l2 :: ls''))
          (fun x hx => dot_ne_nl (hdl x (by simp [hx])))]
        rw [listScan_newline, ihr]
        have hltc : lineTransform (c :: t) = c :: t := by
          simp [lineTransform, hbs]
        simp [joinLines, hltc, List.map_cons]

theorem collapseScan_cons_none {c : Char} {rest : List Char}
    (h : tryCollapse (c :: rest) = none) :
    collapseScan (c :: rest) = c :: collapseScan rest := by
  simp only [collapseScan, List.length_cons, collapseScanF, h]

theorem collapseScan_some {l rest' : List Char} (h : tryCollapse l = some rest') :
    collapseScan l = collapseScan rest' := by
  have hlt := tryCollapse_length h
  cases l with
  | nil => simp [tryCollapse, startsWithChars] at h
  | cons c rest =>
    simp at hlt
    simp only [collapseScan, List.length_cons, collapseScanF, h]
    exact collapseScanF_fuel rest.length rest'.length rest' (by omega) (Nat.le_refl _)

theorem tryCollapse_ne {c : Char} (rest : List Char) (h : c ≠ '<') :
    tryCollapse (c :: rest) = none := by
  have hs : startsWithChars "</ul>".data (c :: rest) = false := by
    show (('<' == c) && startsWithChars "/ul>".data rest) = false
    have : ('<' == c) = false := by
      simp
      exact fun hh => h hh.symm
    simp [this]
  unfold tryCollapse
  rw [hs]
  simp

theorem tryCollapse_lt_not_slash {c : Char} (rest : List Char) (h : c ≠ '/') :
    tryCollapse ('<' :: c :: rest) = none := by
  have hs : startsWithChars "</ul>".data ('<' :: c :: rest) = false := by
    show (('<' == '<') && (('/' == c) && startsWithChars "ul>".data rest)) = false
    have : ('/' == c) = false := by
      simp
      exact fun hh => h hh.symm
    simp [this]
  unfold tryCollapse
  rw [hs]
  simp

theorem tryCollapse_ls_not_u {c : Char} (rest : List Char) (h : c ≠ 'u') :
    tryCollapse ('<' :: '/' :: c :: rest) = none := by
  have hs : startsWithChars "</ul>".data ('<' :: '/' :: c :: rest) = false := by
    show (('<' == '<') && (('/' == '/') && (('u' == c) && startsWithChars "l>".data rest))) = false
    have : ('u' == c) = false := by
      simp
      exact fun hh => h hh.symm
    simp [this]
  unfold tryCollapse
  rw [hs]
  simp

theorem tryCollapse_fire (rest : List Char) :
    tryCollapse ('<' :: '/' :: 'u' :: 'l' :: '>' :: '\n' :: '<' :: 'u' :: 'l' :: '>' :: rest) =
      some rest := rfl

theorem collapseScan_append_noLt {l : List Char} (rest : List Char)
    (h : ∀ c ∈ l, c ≠ '<') :
    collapseScan (l ++ rest) = l ++ collapseScan rest := by
  induction l with
  | nil => simp
  | cons c t ih =>
    rw [List.cons_append, collapseScan_cons_none (tryCollapse_ne _ (h c (by simp))),
      ih (fun x hx => h x (by simp [hx]))]
    rfl

theorem collapseScan_ulli (rest : List Char) :
    collapseScan ('<' :: 'u' :: 'l' :: '>' :: '<' :: 'l' :: 'i' :: '>' :: rest) =
      '<' :: 'u' :: 'l' :: '>' :: '<' :: 'l' :: 'i' :: '>' :: collapseScan rest := by
  rw [collapseScan_cons_none (tryCollapse_lt_not_slash _ (by decide)),
    collapseScan_cons_none (tryCollapse_ne _ (by decide)),
    collapseScan_cons_none (tryCollapse_ne _ (by decide)),
    collapseScan_cons_none (tryCollapse_ne _ (by decide)),
    collapseScan_cons_none (tryCollapse_lt_not_slash _ (by decide)),
    collapseScan_cons_none (tryCollapse_ne _ (by decide)),
    collapseScan_cons_none (tryCollapse_ne _ (by decide)),
    collapseScan_cons_none (tryCollapse_ne _ (by decide))]

theorem collapseScan_li (rest : List Char) :
    collapseScan ('<' :: 'l' :: 'i' :: '>' :: rest) =
      '<' :: 'l' :: 'i' :: '>' :: collapseScan rest := by
  rw [collapseScan_cons_none (tryCollapse_lt_not_slash _ (by decide)),
    collapseScan_cons_none (tryCollapse_ne _ (by decide)),
    collapseScan_cons_none (tryCollapse_ne _ (by decide)),
    collapseScan_cons_none (tryCollapse_ne _ (by decide))]

theorem collapseScan_endli (rest : List Char) :
    collapseScan ('<' :: '/' :: 'l' :: 'i' :: '>' :: rest) =
      '<' :: '/' :: 'l' :: 'i' :: '>' :: collapseScan rest := by
  rw [collapseScan_cons_none (tryCollapse_ls_not_u _ (by decide)),
    collapseScan_cons_none (tryCollapse_ne _ (by decide)),
    collapseScan_cons_none (tryCollapse_ne _ (by decide)),
    collapseScan_cons_none (tryCollapse_ne _ (by decide)),
    collapseScan_cons_none (tryCollapse_ne _ (by decide))]

theorem collapseScan_fire_seq (rest : List Char) :
    collapseScan ('<' :: '/' :: 'u' :: 'l' :: '>' :: '\n' :: '<' :: 'u' :: 'l' :: '>' :: rest) =
      collapseScan rest :=
  collapseScan_some (tryCollapse_fire rest)

theorem collapseScan_endul :
    collapseScan ('<' :: '/' :: 'u' :: 'l' :: '>' :: []) =
      '<' :: '/' :: 'u' :: 'l' :: '>' :: [] := by decide

/-- Two adjacent generated list wrappers, separated by the newline the
list substitution leaves between consecutive bullet lines, are merged
into a single list by the collapse substitution (item texts free of
markup characters). -/
theorem collapse_merge (a b : List Char)
    (ha : ∀ c ∈ a, c ≠ '<') (hb : ∀ c ∈ b, c ≠ '<') :
    collapseScan ("<ul><li>".data ++ (a ++ ("</li></ul>".data ++ ('\n' ::
        ("<ul><li>".data ++ (b ++ "</li></ul>".data)))))) =
      "<ul><li>".data ++ (a ++ ("</li>".data ++ ("<li>".data ++ (b ++ "</li></ul>".data)))) := by
  show collapseScan ('<' :: 'u' :: 'l' :: '>' :: '<' :: 'l' :: 'i' :: '>' ::
      (a ++ ('<' :: '/' :: 'l' :: 'i' :: '>' :: '<' :: '/' :: 'u' :: 'l' :: '>' :: '\n' ::
        '<' :: 'u' :: 'l' :: '>' :: '<' :: 'l' :: 'i' :: '>' ::
          (b ++ ('<' :: '/' :: 'l' :: 'i' :: '>' :: '<' :: '/' :: 'u' :: 'l' :: '>' :: []))))) = _
  rw [collapseScan_ulli, collapseScan_append_noLt _ ha, collapseScan_endli,
    collapseScan_fire_seq, collapseScan_li, collapseScan_append_noLt _ hb,
    collapseScan_endli, collapseScan_endul]
  rfl

-- --- Claim theorems ---

/-- C1 counterexample: the Result rows of the numeric WHERE example are
the Orders rows with OrderIDs 101 and 104 — OrderID 103 has Amount 75,
which does not satisfy Amount > 100, so the claimed row set
{101, 103, 104} is wrong. -/
theorem claim_C1_cex :
    (catTable "WHERE" 1 1 0).map
        (fun t => (t.rows.getD []).map (fun r => rowInt r "OrderID")) = some [101, 104] ∧
    (catTable "WHERE" 1 1 0).map
        (fun t => (t.rows.getD []).map (fun r => rowInt r "OrderID")) ≠ some [101, 103, 104] := by
  decide

/-- C1 as amended: in the catalog, topic WHERE, example index 1 is
titled "Filter with a numeric value" and has exactly two steps; step 1
shows exactly the unfiltered Orders table with its 5 rows; step 2 shows
a table named Result whose rows are exactly the Orders rows with
Amount > 100 — OrderIDs 101 and 104 — each with highlight set. -/
theorem claim_C1 :
    (catExample "WHERE" 1).map Example.title = some "Filter with a numeric value" ∧
    (catExample "WHERE" 1).map (fun e => e.steps.length) = some 2 ∧
    (catStep "WHERE" 1 0).map Step.tables = some [ordersTable] ∧
    ordersTable.rows = some ordersRows ∧
    ordersRows.length = 5 ∧
    (catTable "WHERE" 1 1 0).map TableData.name = some (some "Result") ∧
    (catTable "WHERE" 1 1 0).map TableData.rows = some (some
      ((ordersRows.filter (fun r => intGt (rowInt r "Amount") 100)).map
        (fun r => { r with highlight := true }))) ∧
    (catTable "WHERE" 1 1 0).map TableData.rows = some (some [
      { cells := [("OrderID", .num 101), ("Product", .str "Laptop"),
                  ("Amount", .num 1200), ("CustomerID", .num 1)], highlight := true },
      { cells := [("OrderID", .num 104), ("Product", .str "Monitor"),
                  ("Amount", .num 300), ("CustomerID", .num 3)], highlight := true }]) := by
  decide

/-- C2 counterexample: a non-success response whose body carries the
error message "Bad request" is shown as "An error occurred: Bad request",
not verbatim as "Bad request" — the claim that the service-provided
message is surfaced with no alteration is false. -/
theorem claim_C2_cex :
    (callGemini ⟨"SELECT 1;", "", false, ""⟩ ⟨false, some "Bad request", none⟩).state.error =
      "An error occurred: Bad request" ∧
    (callGemini ⟨"SELECT 1;", "", false, ""⟩ ⟨false, some "Bad request", none⟩).state.error ≠
      "Bad request" := by
  decide

/-- C2 as amended: for every completed non-success response, the text
shown is "An error occurred: " followed by the service-provided message
when the body carries a non-empty one, and "An error occurred: " followed
by the generic "Something went wrong on the server." otherwise. -/
theorem claim_C2 (st : ClientState) (resp : ApiResponse)
    (hq : jsTrim st.query ≠ "") (hok : resp.ok = false) :
    (∀ msg, resp.errorField = some msg → msg ≠ "" →
      (callGemini st resp).state.error = "An error occurred: " ++ msg) ∧
    ((resp.errorField = none ∨ resp.errorField = some "") →
      (callGemini st resp).state.error = "An error occurred: " ++ genericServerError) := by
  constructor
  · intro msg hm hne
    simp [callGemini, hq, hok, hm, jsOrString, hne]
  · intro hc
    rcases hc with hc | hc <;> simp [callGemini, hq, hok, hc, jsOrString]

theorem claim_C2_witness :
    (callGemini ⟨"SELECT 1;", "", false, ""⟩ ⟨false, some "boom", none⟩).state.error =
      "An error occurred: boom" ∧
    (callGemini ⟨"SELECT 1;", "", false, ""⟩ ⟨false, none, none⟩).state.error =
      "An error occurred: Something went wrong on the server." := by
  constructor
  · exact (claim_C2 ⟨"SELECT 1;", "", false, ""⟩ ⟨false, some "boom", none⟩
      (by decide) rfl).1 "boom" rfl (by decide)
  · exact (claim_C2 ⟨"SELECT 1;", "", false, ""⟩ ⟨false, none, none⟩
      (by decide) rfl).2 (Or.inl rfl)

/-- C3: a query that trims to the empty string only sets the user-facing
error to "Please enter a SQL query." — the explanation and loading state
keep their previous values — and no network request is issued. -/
theorem claim_C3 (st : ClientState) (resp : ApiResponse) (h : jsTrim st.query = "") :
    callGemini st resp = { state := { st with error := emptyQueryError }, requests := 0 } := by
  simp [callGemini, h]

theorem claim_C3_witness :
    callGemini ⟨" \t\n ", "old explanation", true, "old error"⟩ ⟨true, none, some "x"⟩ =
      { state := ⟨" \t\n ", "old explanation", true, "Please enter a SQL query."⟩,
        requests := 0 } :=
  claim_C3 ⟨" \t\n ", "old explanation", true, "old error"⟩ ⟨true, none, some "x"⟩ (by decide)

/-- C4: on "**a** and *b*" the formatter emits the strong element before
the em element with no unmatched asterisk anywhere in the output, and
the bold pass runs strictly before the italic pass — running the two
substitutions in the opposite order yields a different result on this
input. -/
theorem claim_C4 :
    formatAiResponse "**a** and *b*" =
      "<p>" ++ "<strong>a</strong>" ++ " and " ++ "<em>b</em>" ++ "</p>" ∧
    (formatAiResponse "**a** and *b*").data.count '*' = 0 ∧
    italicScan (boldScan "**a** and *b*".data) ≠ boldScan (italicScan "**a** and *b*".data) := by
  decide

/-- C6: the source's chained row-class conditional agrees, on every row,
with the spec's tagged-variant classification applying the first-match
precedence highlight > unmatched > inserted > updated, defaulting to
normal. -/
theorem claim_C6 : ∀ r : Row, rowClass r = (classifyRow r).toClass := by
  intro r
  rcases r with ⟨cells, hl, um, ins, upd, uc⟩
  cases hl <;> cases um <;> cases ins <;> cases upd <;> rfl

/-- C7 counterexample: the claimed catalog invariant fails — the
ORDER BY multi-column example's Result table (rows keep their EmployeeID
key, absent from its columns list) and the CTE example's USA_Customers
table (rows keep Country) each contain a row with a key outside the
table's columns list. -/
theorem claim_C7_cex :
    (catTable "ORDER BY" 2 0 0).map tableColsClosed = some false ∧
    (catTable "CTE" 0 1 0).map tableColsClosed = some false ∧
    catalogOk = false := by
  decide

/-- C7 as amended: every example of every topic has at least one step,
and every table with a columns list has no row key outside it, except
the two tables of the counterexample (ORDER BY example 2 step 0 table 0
and CTE example 0 step 1 table 0), whose extra row keys are render-only. -/
theorem claim_C7 : catalogStepsNonempty = true ∧ catalogColsClosedExcept = true := by
  decide

/-- C8 counterexample: a second intersection event for an
already-revealed step index appends it again — after events [0, 0] the
revealed state is [0, 0], which contains a duplicate index. -/
theorem claim_C8_cex :
    runEvents [0, 0] = [0, 0] ∧ ¬ (runEvents [0, 0]).Nodup := by
  decide

theorem runEvents_append (acc : List Nat) (events : List Nat) :
    events.foldl revealStep acc = acc ++ events := by
  induction events generalizing acc with
  | nil => simp
  | cons e t ih => simp [revealStep, ih]

/-- C8 as amended: each intersection event appends the step index
unconditionally — whether or not it is already present — so the revealed
state may hold duplicates; a step index is visible exactly when it
occurs among the events since the last reset. -/
theorem claim_C8 :
    (∀ (events : List Nat) (e : Nat), runEvents (events ++ [e]) = runEvents events ++ [e]) ∧
    (∀ (events : List Nat) (i : Nat), isVisible (runEvents events) i = events.contains i) := by
  constructor
  · intro events e
    simp [runEvents, runEvents_append, resetRevealed, revealStep]
  · intro events i
    simp [isVisible, runEvents, runEvents_append, resetRevealed]

/-- C9: a displayed cell whose value is null (or whose key is absent,
the undefined case) renders exactly the literal "NULL" — never the empty
string nor the lowercase words — and any other value renders as its
string form. -/
theorem claim_C9 (r : Row) (k : String) :
    (isNullish (getValue r k) = true →
      renderCell r k = "NULL" ∧ renderCell r k ≠ "" ∧
      renderCell r k ≠ "null" ∧ renderCell r k ≠ "undefined") ∧
    (∀ v, getValue r k = some v → isNullish (some v) = false →
      renderCell r k = jsString v) := by
  constructor
  · intro h
    refine ⟨?_, ?_, ?_, ?_⟩ <;> simp [renderCell, h]
  · intro v hv hnn
    simp [renderCell, hv, hnn, jsStringOpt]

theorem claim_C9_witness :
    renderCell (mkRow [("A", .vnull), ("B", .num 7)]) "A" = "NULL" ∧
    renderCell (mkRow [("A", .vnull), ("B", .num 7)]) "B" = "7" ∧
    renderCell (mkRow [("A", .vnull), ("B", .num 7)]) "C" = "NULL" := by
  refine ⟨((claim_C9 (mkRow [("A", .vnull), ("B", .num 7)]) "A").1 (by decide)).1, ?_,
    ((claim_C9 (mkRow [("A", .vnull), ("B", .num 7)]) "C").1 (by decide)).1⟩
  have h := (claim_C9 (mkRow [("A", .vnull), ("B", .num 7)]) "B").2 (.num 7)
    (by decide) (by decide)
  rw [h]
  decide

/-- C10: the Table renderer returns the empty-set placeholder for a
missing table value, a table without a rows field, and a table whose
rows list is empty; it derives headers from the first row's keys only
in the branch where at least one row exists. -/
theorem claim_C10 :
    renderTable none = RenderResult.emptyMessage ∧
    (∀ t : TableData, t.rows = none → renderTable (some t) = .emptyMessage) ∧
    (∀ t : TableData, t.rows = some [] → renderTable (some t) = .emptyMessage) ∧
    (∀ (t : TableData) (r0 : Row) (rs : List Row), t.rows = some (r0 :: rs) →
      renderTable (some t) =
        .rendered (t.columns.getD (rowKeys r0))
          ((r0 :: rs).map (fun r => (t.columns.getD (rowKeys r0)).map (fun h => renderCell r h)))) := by
  refine ⟨rfl, ?_, ?_, ?_⟩
  · intro t h
    simp [renderTable, h]
  · intro t h
    simp [renderTable, h]
  · intro t r0 rs h
    simp [renderTable, h]

/-- C5 counterexample: the input "* a *b* c" is a single line beginning
with '*' followed by a space, yet the output contains no list item at
all — the italic substitution, which runs first, consumes the leading
'*' (pairing it with the one before 'b'), so the line no longer starts
with a bullet when the list substitution runs. -/
theorem claim_C5_cex :
    formatAiResponse "* a *b* c" = "<p><em> a </em>b* c</p>" ∧
    containsSeq "<li>".data (formatAiResponse "* a *b* c").data = false := by
  decide

/-- C5 as amended: the list substitution (which runs on the text after
the bold and italic substitutions) wraps each line of its input that
still begins with optional whitespace and '-' or '*' followed by a space
individually as a list item, leaving other lines unchanged (shown for
texts whose lines carry no line terminators and are not all-whitespace);
the collapse substitution then merges the wrappers of adjacent list-item
lines into one single list (shown for item texts free of markup
characters); on an input whose bullets survive the earlier passes, such
as "- apples\n- pears", the full formatter therefore emits one merged
list. -/
theorem claim_C5 :
    (∀ ls : List (List Char),
      (∀ line ∈ ls, ∀ c ∈ line, isDotChar c = true) →
      (∀ line ∈ ls, line.any (fun c => !isJsWs c) = true) →
      listScan true (joinLines ls) = joinLines (ls.map lineTransform)) ∧
    (∀ a b : List Char, (∀ c ∈ a, c ≠ '<') → (∀ c ∈ b, c ≠ '<') →
      collapseScan ("<ul><li>".data ++ (a ++ ("</li></ul>".data ++ ('\n' ::
          ("<ul><li>".data ++ (b ++ "</li></ul>".data)))))) =
        "<ul><li>".data ++ (a ++ ("</li>".data ++ ("<li>".data ++ (b ++ "</li></ul>".data))))) ∧
    formatAiResponse "- apples\n- pears" = "<p><ul><li>apples</li><li>pears</li></ul></p>" :=
  ⟨listScan_lines, collapse_merge, by decide⟩

theorem claim_C5_witness :
    listScan true "- a\nx\n* b c".data =
      "<ul><li>a</li></ul>\nx\n<ul><li>b c</li></ul>".data ∧
    collapseScan "<ul><li>a</li></ul>\n<ul><li>b</li></ul>".data =
      "<ul><li>a</li><li>b</li></ul>".data := by
  constructor
  · exact claim_C5.1 ["- a".data, "x".data, "* b c".data] (by decide) (by decide)
  · exact claim_C5.2.1 "a".data "b".data (by decide) (by decide)

theorem claim_C10_witness :
    renderTable (some ⟨some "T", some ["A"], none⟩) = .emptyMessage ∧
    renderTable (some ⟨some "T", none, some []⟩) = .emptyMessage ∧
    renderTable (some ⟨none, none, some [mkRow [("A", .num 1)]]⟩) =
      .rendered ["A"] [["1"]] := by
  refine ⟨claim_C10.2.1 _ rfl, claim_C10.2.2.1 _ rfl, ?_⟩
  rw [claim_C10.2.2.2 ⟨none, none, some [mkRow [("A", .num 1)]]⟩ (mkRow [("A", .num 1)]) [] rfl]
  decide

end SQLViz
